import Mathlib

/-!
Verification development for the lora-gateway-bridge repository.

The repository bridges LoRa gateways speaking the Semtech UDP
packet-forwarder protocol (and a WebSocket protocol) to an MQTT broker.
This file gives a shallow embedding of the parts of the code that the
properties below are about:

* the UDP backend of `internal/backend/semtechudp` (packet dispatch,
  PULL_DATA / PUSH_DATA / TX_ACK handlers, downlink sending,
  configuration apply, the `closed` flag);
* the MQTT integration of `internal/integration/mqtt` (command topic
  demultiplexing, the per-gateway subscription set).

State is passed explicitly and every channel send or UDP enqueue is
recorded as an element of an effect trace, in the order the Go code
performs them.  Machine integers are modelled as `Nat` with explicit
`% 2 ^ 16` where a conversion truncates.  The packet codec
(`packets` package), the gateway registry and the metadata store are
not part of the provided sources; they are modelled from the
specification where needed, and marked as such.
-/

/-- A UDP address as the backend sees it: the textual IP and whether it
is a loopback address (`handlePushData` branches on `IP.IsLoopback`). -/
structure UDPAddr where
  ip         : String
  isLoopback : Bool
deriving DecidableEq, Repr

/-- A raw UDP packet (`udpPacket` in the source): source address and
payload bytes, each byte a `Nat` below 256. -/
structure UdpPacket where
  addr : UDPAddr
  data : List Nat
deriving DecidableEq, Repr

/-- An 8-byte gateway identifier (EUI-64), kept as its byte list. -/
abbrev EUI64 : Type := List Nat

/-- A gateway registry entry of the UDP backend (`gateway` struct):
last known address, last-seen time and protocol version. -/
structure GatewayMeta where
  addr            : UDPAddr
  lastSeen        : Nat
  protocolVersion : Nat
deriving DecidableEq, Repr

/-- Errors surfaced by the backend operations modelled here. -/
inductive BackendErr where
  | gatewayDoesNotExist
  | invalidPacket
  | unknownPacketType (t : Nat)
  | applyStepFailed (step : String)
deriving DecidableEq, Repr

/-- The error text of each error, as the Go code renders it. -/
def BackendErr.message : BackendErr → String
  | .gatewayDoesNotExist => "gateway does not exist"
  | .invalidPacket       => "invalid packet"
  | .unknownPacketType _ => "unknown packet type"
  | .applyStepFailed s   => s

/-- The gateway registry's map (the Go `map[lorawan.EUI64]gateway`),
modelled as a partial lookup with at most one entry per id. -/
def GatewayRegistry : Type := EUI64 → Option GatewayMeta

/-- Modelled from the spec: the gateway registry (its source file is not
among the provided sources).  `get` returns the entry for an id, or the
"gateway does not exist" error when the id has no entry. -/
def gatewaysGet (gs : GatewayRegistry) (id : EUI64) :
    Except BackendErr GatewayMeta :=
  match gs id with
  | some g => .ok g
  | none => .error .gatewayDoesNotExist

/-- Modelled from the spec: registry upsert (`set`): the entry for the
id is created or replaced, every other id keeps its entry. -/
def gatewaysSet (gs : GatewayRegistry) (id : EUI64) (g : GatewayMeta) :
    GatewayRegistry :=
  fun id2 => if id2 = id then some g else gs id2

/-- The empty gateway registry `NewBackend` creates. -/
def emptyRegistry : GatewayRegistry := fun _ => none

/-- A decoded gateway status record, already typed (the JSON `stat`
object of a PUSH_DATA payload). -/
structure StatRecord where
  timePresent : Bool
  rxReceived  : Nat
  rxValidCRC  : Nat
  txReceived  : Nat
  txEmitted   : Nat
deriving DecidableEq, Repr

/-- A decoded uplink record (one element of the JSON `rxpk` array of a
PUSH_DATA payload).  `crcStat` is the CRC status: `1` valid, `-1`
invalid (`NEG`), `0` no CRC. -/
structure RxpkRecord where
  crcStat : Int
  freq    : Nat
  payload : List Nat
deriving DecidableEq, Repr

/-- The normalized `gw.GatewayStats` protobuf event, restricted to the
fields this development reads. -/
structure GatewayStats where
  gatewayId     : EUI64
  ip            : String
  configVersion : String
  metaData      : List (String × String)
  rxReceived    : Nat
  rxValidCRC    : Nat
  txReceived    : Nat
  txEmitted     : Nat
deriving DecidableEq, Repr

/-- The all-default `GatewayStats` value (Go zero value). -/
def emptyStats : GatewayStats :=
  { gatewayId := [], ip := "", configVersion := "", metaData := []
    rxReceived := 0, rxValidCRC := 0, txReceived := 0, txEmitted := 0 }

/-- The normalized `gw.UplinkFrame` protobuf event, restricted to the
fields this development reads. -/
structure UplinkFrame where
  gatewayId : EUI64
  frequency : Nat
  payload   : List Nat
  carrier   : List Nat
deriving DecidableEq, Repr

/-- The normalized `gw.DownlinkFrame` protobuf command, restricted to
the fields this development reads.  `token` is the application-supplied
32-bit token; `txInfoGatewayId` is `TxInfo.GatewayId`. -/
structure DownlinkFrame where
  token           : Nat
  txInfoGatewayId : EUI64
  phyPayload      : List Nat
deriving DecidableEq, Repr

/-- The normalized `gw.DownlinkTXAck` protobuf event. -/
structure DownlinkTXAck where
  gatewayId : EUI64
  token     : Nat
  error     : String
deriving DecidableEq, Repr

/-- One observable effect of a backend operation, in the order the Go
code performs it: an enqueue on the outbound UDP channel, or a send on
one of the typed event channels. -/
inductive Effect where
  | sendUdp    (addr : UDPAddr) (data : List Nat)
  | emitStats  (s : GatewayStats)
  | emitUplink (f : UplinkFrame)
  | emitTxAck  (a : DownlinkTXAck)
  | notifyMac  (s : GatewayStats)
deriving DecidableEq, Repr

/-- Whether an effect is an outbound UDP enqueue. -/
def Effect.isSendUdp : Effect → Bool
  | .sendUdp _ _ => true
  | _ => false

/-- Whether an effect is a `GatewayStats` event send. -/
def Effect.isEmitStats : Effect → Bool
  | .emitStats _ => true
  | _ => false

/-- Whether an effect is an `UplinkFrame` event send. -/
def Effect.isEmitUplink : Effect → Bool
  | .emitUplink _ => true
  | _ => false

/-- A per-gateway packet-forwarder configuration descriptor
(`pfConfiguration` in the source). -/
structure PfConfiguration where
  gatewayID      : EUI64
  baseFile       : String
  outputFile     : String
  restartCommand : String
  currentVersion : String
deriving DecidableEq, Repr

/-- The UDP backend state (`Backend` struct), restricted to the fields
the modelled operations touch. -/
structure Backend where
  closed         : Bool
  gateways       : GatewayRegistry
  configurations : List PfConfiguration
  skipCRCCheck   : Bool
  fakeRxTime     : Bool

/-! ### Packet codec

The `packets` package is not among the provided sources; the wire
format below is modelled from the specification: every frame starts
with the 4-byte prefix `[protocol_version, token_hi, token_lo, type]`,
with types PUSH_DATA 0x00, PUSH_ACK 0x01, PULL_DATA 0x02,
PULL_RESP 0x03, PULL_ACK 0x04, TX_ACK 0x05, and PUSH_DATA / PULL_DATA
carry the 8-byte gateway MAC right after the prefix. -/

/-- Modelled from the spec: `packets.GetPacketType`.  Requires at least
the 4-byte prefix and a supported protocol version (1 or 2); returns
the type byte. -/
def GetPacketType (data : List Nat) : Except BackendErr Nat :=
  if data.length < 4 then .error .invalidPacket
  else if data.head! ≠ 1 ∧ data.head! ≠ 2 then .error .invalidPacket
  else .ok (data.get! 3)

/-- A decoded PULL_DATA packet. -/
structure PullDataPacket where
  protocolVersion : Nat
  randomToken     : Nat
  gatewayMAC      : EUI64
deriving DecidableEq, Repr

/-- Modelled from the spec: unmarshal of a PULL_DATA frame: the 4-byte
prefix with type 0x02 followed by the 8-byte gateway MAC.  The 16-bit
random token is rebuilt from its two big-endian prefix bytes. -/
def pullDataUnmarshal (data : List Nat) : Except BackendErr PullDataPacket :=
  if data.length = 12 ∧ (data.head! = 1 ∨ data.head! = 2) ∧
      data.get! 3 = 2 then
    .ok { protocolVersion := data.head!
          randomToken := data.get! 1 * 256 + data.get! 2
          gatewayMAC := (data.drop 4).take 8 }
  else .error .invalidPacket

/-- Modelled from the spec: marshal of a PULL_ACK frame: the 4-byte
prefix `[version, token_hi, token_lo, 0x04]` and nothing else. -/
def pullAckBytes (version token : Nat) : List Nat :=
  [version, token / 256 % 256, token % 256, 4]

/-- Modelled from the spec: marshal of a PUSH_ACK frame: the 4-byte
prefix `[version, token_hi, token_lo, 0x01]` and nothing else. -/
def pushAckBytes (version token : Nat) : List Nat :=
  [version, token / 256 % 256, token % 256, 1]

/-- A decoded PUSH_DATA packet; the JSON payload is already parsed into
its optional `stat` record and its `rxpk` array. -/
structure PushDataPacket where
  protocolVersion : Nat
  randomToken     : Nat
  gatewayMAC      : EUI64
  stat            : Option StatRecord
  rxpk            : List RxpkRecord
deriving DecidableEq, Repr

/-- The `txpk_ack` JSON body of a TX_ACK packet. -/
structure TXPKACK where
  error : String
deriving DecidableEq, Repr

/-- A decoded TX_ACK packet; the JSON body is optional. -/
structure TXACKPacket where
  protocolVersion : Nat
  randomToken     : Nat
  gatewayMAC      : EUI64
  payload         : Option TXPKACK
deriving DecidableEq, Repr

/-- Modelled from the spec: `PushDataPacket.GetGatewayStats`.  Status
decoding: the optional `stat` object produces a `GatewayStats` with the
four counters and the gateway MAC as its id. -/
def GetGatewayStats (mac : EUI64) (stat : Option StatRecord) :
    Option GatewayStats :=
  match stat with
  | none => none
  | some st =>
      some { emptyStats with
              gatewayId := mac
              rxReceived := st.rxReceived
              rxValidCRC := st.rxValidCRC
              txReceived := st.txReceived
              txEmitted := st.txEmitted }

/-- Modelled from the spec: `PushDataPacket.GetUplinkFrames`.  Each
`rxpk` record produces one `UplinkFrame` carrying the gateway MAC; a
record whose CRC status is `NEG` (-1) is dropped unless the
`skip_crc_check` option is set. -/
def GetUplinkFrames (mac : EUI64) (skipCRCCheck : Bool)
    (rxpk : List RxpkRecord) : List UplinkFrame :=
  (rxpk.filter (fun r => skipCRCCheck || r.crcStat ≠ -1)).map
    (fun r => { gatewayId := mac, frequency := r.freq
                payload := r.payload, carrier := [] })

/-- A PULL_RESP packet before marshalling. -/
structure PullRespPacket where
  protocolVersion : Nat
  randomToken     : Nat
  frame           : DownlinkFrame
deriving DecidableEq, Repr

/-- Modelled from the spec: `packets.GetPullRespPacket`, which wraps a
downlink frame with the gateway protocol version and the given 16-bit
token. -/
def GetPullRespPacket (protocolVersion token : Nat) (frame : DownlinkFrame) :
    PullRespPacket :=
  { protocolVersion := protocolVersion, randomToken := token, frame := frame }

/-- Modelled from the spec: marshal of a PULL_RESP frame: the prefix
`[version, token_hi, token_lo, 0x03]` followed by the JSON `txpk`
payload bytes (kept abstract as the frame's payload bytes). -/
def pullRespMarshal (p : PullRespPacket) : List Nat :=
  [p.protocolVersion, p.randomToken / 256 % 256, p.randomToken % 256, 3] ++
    p.frame.phyPayload

/-! ### UDP backend handlers (from the source) -/

/-- `handlePullData` (source lines 382-415): unmarshal the PULL_DATA
packet, build a PULL_ACK with the same protocol version and token,
upsert the registry entry for the MAC with the source address, the
current time and the protocol version, then enqueue the ack to the
source address and send a `NotifyMac` event carrying just the gateway
id.  Returns the new state, the effect trace and the result. -/
def handlePullData (b : Backend) (up : UdpPacket) (now : Nat) :
    Backend × List Effect × Except BackendErr Unit :=
  match pullDataUnmarshal up.data with
  | .error e => (b, [], .error e)
  | .ok p =>
      let ack := pullAckBytes p.protocolVersion p.randomToken
      let gs := gatewaysSet b.gateways p.gatewayMAC
        { addr := up.addr, lastSeen := now, protocolVersion := p.protocolVersion }
      ({ b with gateways := gs },
       [.sendUdp up.addr ack,
        .notifyMac { emptyStats with gatewayId := p.gatewayMAC }],
       .ok ())

/-- `handleTXACK` (source lines 417-437): emit a `DownlinkTXAck` with
the gateway MAC and the random token; the `Error` field carries the
received error string only when a JSON body is present and its error is
neither empty nor `"NONE"`. -/
def handleTXACK (p : TXACKPacket) : List Effect :=
  match p.payload with
  | some pl =>
      if pl.error ≠ "" ∧ pl.error ≠ "NONE" then
        [.emitTxAck { gatewayId := p.gatewayMAC, token := p.randomToken
                      error := pl.error }]
      else
        [.emitTxAck { gatewayId := p.gatewayMAC, token := p.randomToken
                      error := "" }]
  | none =>
      [.emitTxAck { gatewayId := p.gatewayMAC, token := p.randomToken
                    error := "" }]

/-- `handleStats` (source lines 496-508): walk the configuration list
and set the stats' `ConfigVersion` to the current version of every
configuration whose gateway id matches, then send the stats on the
stats channel. -/
def handleStats (b : Backend) (gatewayID : EUI64) (stats : GatewayStats) :
    List Effect :=
  [.emitStats (b.configurations.foldl
    (fun s c => if gatewayID = c.gatewayID
                then { s with configVersion := c.currentVersion } else s)
    stats)]

/-- The IP substitution of `handlePushData` (source lines 470-480): a
non-loopback source address stamps its IP on the stats; a loopback one
uses the host's outbound IP when that lookup succeeds and leaves the
field unchanged when it fails. -/
def setStatsIp (addr : UDPAddr) (outboundIp : Option String)
    (s : GatewayStats) : GatewayStats :=
  if addr.isLoopback then
    match outboundIp with
    | some ip => { s with ip := ip }
    | none => s
  else { s with ip := addr.ip }

/-- `handlePushData` (source lines 439-494), after a successful
unmarshal: first enqueue a PUSH_ACK with the same protocol version and
token to the source address, then (when a `stat` object is present)
stamp the gateway IP and emit the `GatewayStats` through `handleStats`,
then emit each decoded `UplinkFrame`, each with the tracing carrier
set. -/
def handlePushData (b : Backend) (addr : UDPAddr) (p : PushDataPacket)
    (outboundIp : Option String) (carrier : List Nat) : List Effect :=
  [Effect.sendUdp addr (pushAckBytes p.protocolVersion p.randomToken)] ++
  (match GetGatewayStats p.gatewayMAC p.stat with
   | none => []
   | some stats => handleStats b p.gatewayMAC (setStatsIp addr outboundIp stats)) ++
  (GetUplinkFrames p.gatewayMAC b.skipCRCCheck p.rxpk).map
    (fun f => .emitUplink { f with carrier := carrier })

/-- The unmarshalling steps `handlePacket` delegates to for the packet
types whose bodies carry JSON; kept as oracle functions because the
JSON codec is outside the provided sources. -/
structure ParseOracles where
  parsePush : List Nat → Except BackendErr PushDataPacket
  parseTx   : List Nat → Except BackendErr TXACKPacket

/-- `handlePacket` (source lines 343-380): under the read lock, return
nil immediately when the backend is closed; otherwise classify the
packet and dispatch to the PUSH_DATA, PULL_DATA or TX_ACK handler,
erroring on any other type. -/
def handlePacket (o : ParseOracles) (b : Backend) (up : UdpPacket)
    (now : Nat) (outboundIp : Option String) (carrier : List Nat) :
    Backend × List Effect × Except BackendErr Unit :=
  if b.closed then (b, [], .ok ())
  else
    match GetPacketType up.data with
    | .error e => (b, [], .error e)
    | .ok t =>
        if t = 0 then
          match o.parsePush up.data with
          | .error e => (b, [], .error e)
          | .ok p => (b, handlePushData b up.addr p outboundIp carrier, .ok ())
        else if t = 2 then handlePullData b up now
        else if t = 5 then
          match o.parseTx up.data with
          | .error e => (b, [], .error e)
          | .ok p => (b, handleTXACK p, .ok ())
        else (b, [], .error (.unknownPacketType t))

/-- `SendDownlinkFrame` (source lines 177-202): look up the registry by
the frame's `TxInfo.GatewayId`; on a miss return the error with nothing
enqueued; on a hit enqueue the marshalled PULL_RESP, built with the
stored protocol version and the low 16 bits of the frame's token, to
the stored address. -/
def SendDownlinkFrame (b : Backend) (frame : DownlinkFrame) :
    List Effect × Except BackendErr Unit :=
  match gatewaysGet b.gateways frame.txInfoGatewayId with
  | .error e => ([], .error e)
  | .ok g =>
      let resp := GetPullRespPacket g.protocolVersion (frame.token % 2 ^ 16) frame
      ([.sendUdp g.addr (pullRespMarshal resp)], .ok ())

/-! ### Configuration apply (from the source)

`applyConfiguration` (source lines 228-277) performs four effectful
steps whose implementations (config parsing, file IO, process restart)
live outside the provided sources; their outcomes are therefore modelled
as oracle booleans.  Only when every step succeeds does the final
locked loop advance `currentVersion` for every configuration entry
whose gateway id matches. -/

/-- The outcomes of the effectful steps of one `applyConfiguration`
run: `getGatewayConfig`, `loadConfigFile`, `mergeConfig`, the config
file write and the packet-forwarder restart command. -/
structure ApplySteps where
  getConfigOk : Bool
  loadOk      : Bool
  mergeOk     : Bool
  writeOk     : Bool
  restartOk   : Bool
deriving DecidableEq, Repr

/-- Whether every effectful step of an apply run succeeded. -/
def ApplySteps.allOk (io : ApplySteps) : Bool :=
  io.getConfigOk && io.loadOk && io.mergeOk && io.writeOk && io.restartOk

/-- The `gw.GatewayConfiguration` protobuf command, restricted to the
fields this development reads. -/
structure GatewayConfiguration where
  gatewayId : EUI64
  version   : String
deriving DecidableEq, Repr

/-- `applyConfiguration` (source lines 228-277): run the four steps in
order, returning the first failure with the state unchanged; on full
success set `currentVersion` to the applied version on every
configuration entry whose gateway id matches. -/
def applyConfiguration (b : Backend) (pfConfig : PfConfiguration)
    (config : GatewayConfiguration) (io : ApplySteps) :
    Backend × Except BackendErr Unit :=
  if !io.getConfigOk then (b, .error (.applyStepFailed "get gateway config error"))
  else if !io.loadOk then (b, .error (.applyStepFailed "load config file error"))
  else if !io.mergeOk then (b, .error (.applyStepFailed "merge config error"))
  else if !io.writeOk then (b, .error (.applyStepFailed "write config file error"))
  else if !io.restartOk then
    (b, .error (.applyStepFailed "invoke packet-forwarder restart error"))
  else
    let cfgs := b.configurations.map
      (fun c => if c.gatewayID = pfConfig.gatewayID
                then { c with currentVersion := config.version } else c)
    ({ b with configurations := cfgs }, .ok ())

/-- `ApplyConfiguration` (source lines 206-226): find the configuration
entry for the command's gateway id (the loop keeps the last match),
fail with "gateway does not exist" when there is none, and otherwise run
`applyConfiguration` on a copy of the matched entry. -/
def ApplyConfiguration (b : Backend) (config : GatewayConfiguration)
    (io : ApplySteps) : Backend × Except BackendErr Unit :=
  match b.configurations.foldl
      (fun acc c => if c.gatewayID = config.gatewayId then some c else acc)
      none with
  | none => (b, .error .gatewayDoesNotExist)
  | some pfConfig => applyConfiguration b pfConfig config io

/-- One `ApplyConfiguration` call of a run: the command and the
outcomes of its effectful steps. -/
structure ApplyEvent where
  config : GatewayConfiguration
  io     : ApplySteps
deriving DecidableEq, Repr

/-- The backend state after a sequence of `ApplyConfiguration` calls. -/
def runApplies (b : Backend) (es : List ApplyEvent) : Backend :=
  es.foldl (fun b e => (ApplyConfiguration b e.config e.io).1) b

/-- Specification-side account of one apply call: it succeeds exactly
when some configuration entry exists for the id and every effectful
step succeeded. -/
def applySucceeds (cfgs : List PfConfiguration) (e : ApplyEvent) : Bool :=
  cfgs.any (fun c => c.gatewayID = e.config.gatewayId) && e.io.allOk

/-- Specification-side account of the version a gateway's stats should
report: the version of the most recent successful apply for that id,
starting from the empty string. -/
def lastAppliedVersion (cfgs : List PfConfiguration) (es : List ApplyEvent)
    (g : EUI64) : String :=
  es.foldl
    (fun v e => if e.config.gatewayId = g ∧ applySucceeds cfgs e
                then e.config.version else v)
    ""

/-- Specification-side account of `handleStats`' version stamping: the
current version of the last configuration entry matching the id, or the
stats' own version when none matches. -/
def lastConfigVersion (cfgs : List PfConfiguration) (g : EUI64)
    (dflt : String) : String :=
  match (cfgs.filter (fun c => g = c.gatewayID)).getLast? with
  | some c => c.currentVersion
  | none => dflt

/-! ### Metadata (modelled from the spec)

The metadata store (`internal/metadata`) is not among the provided
sources. -/

/-- Modelled from the spec: `metadata.Get` returns the union of the
static and the dynamic string maps, the dynamic entries overriding the
static ones on key collision. -/
def metadataGet (static dynamic : List (String × String)) :
    List (String × String) :=
  static.filter (fun kv => !(dynamic.any (fun d => d.1 = kv.1))) ++ dynamic

/-! ### MQTT integration (from `internal/integration/mqtt/backend.go`) -/

/-- Whether the character list `p` is a leading segment of `s`. -/
def hasPre (p s : List Char) : Bool :=
  match p, s with
  | [], _ => true
  | _ :: _, [] => false
  | a :: p, b :: s => a = b && hasPre p s

/-- Whether the character list `p` occurs inside `s` (Go
`strings.Contains`). -/
def hasSub (p s : List Char) : Bool :=
  hasPre p s ||
    match s with
    | [] => false
    | _ :: s => hasSub p s

/-- Go `strings.HasSuffix t suffix`. -/
def strEndsWith (t suffix : String) : Bool :=
  hasPre suffix.toList.reverse t.toList.reverse

/-- Go `strings.Contains t sub`. -/
def strContains (t sub : String) : Bool :=
  hasSub sub.toList t.toList

/-- An effect of the MQTT command handler: a delivery on the downlink
channel or on the gateway-configuration channel. -/
inductive MqttEffect where
  | downlink (f : DownlinkFrame)
  | gwConfig (c : GatewayConfiguration)
deriving DecidableEq, Repr

/-- The process-global unmarshal functions of the integration, kept as
oracles (protobuf / JSON decoding of external message schemas). -/
structure MqttOracles where
  unmarshalDown   : List Nat → Except String DownlinkFrame
  unmarshalConfig : List Nat → Except String GatewayConfiguration

/-- `handleDownlinkFrame` (backend.go lines 324-336): unmarshal the
payload as a `DownlinkFrame` and deliver it to the downlink channel; an
unmarshal error is logged and nothing is delivered. -/
def handleDownlinkFrame (o : MqttOracles) (payload : List Nat) :
    List MqttEffect :=
  match o.unmarshalDown payload with
  | .ok f => [.downlink f]
  | .error _ => []

/-- `handleGatewayConfiguration` (backend.go lines 338-350): unmarshal
the payload as a `GatewayConfiguration` and deliver it to the
configuration channel; an unmarshal error is logged and nothing is
delivered. -/
def handleGatewayConfiguration (o : MqttOracles) (payload : List Nat) :
    List MqttEffect :=
  match o.unmarshalConfig payload with
  | .ok c => [.gwConfig c]
  | .error _ => []

/-- The topic test of the downlink branch of `handleCommand`. -/
def downTopic (topic : String) : Bool :=
  strEndsWith topic "down" || strContains topic "command=down"

/-- The topic test of the configuration branch of `handleCommand`. -/
def configTopic (topic : String) : Bool :=
  strEndsWith topic "config" || strContains topic "command=config"

/-- `handleCommand` (backend.go lines 352-364): dispatch on the inbound
topic; the downlink branch is tried first, then the configuration
branch; any other topic is logged and dropped. -/
def handleCommand (o : MqttOracles) (topic : String) (payload : List Nat) :
    List MqttEffect :=
  if downTopic topic then handleDownlinkFrame o payload
  else if configTopic topic then handleGatewayConfiguration o payload
  else []

/-- One subscription-lifecycle call on the MQTT integration, with the
outcome of the broker round-trip (token wait / template render) as an
oracle boolean. -/
inductive MqttOp where
  | sub (g : EUI64) (brokerOk : Bool)
  | unsub (g : EUI64) (brokerOk : Bool)
deriving DecidableEq, Repr

/-- One step of the known-subscription set (`b.gateways` map of the
integration): `SubscribeGateway` (backend.go lines 164-174) records the
id only after the broker subscribe succeeded; `UnsubscribeGateway`
(lines 199-223) deletes it only after the broker unsubscribe succeeded;
either failure returns early with the set unchanged. -/
def applyMqttOp (s : List EUI64) : MqttOp → List EUI64
  | .sub g ok => if ok then (if g ∈ s then s else s ++ [g]) else s
  | .unsub g ok => if ok then s.filter (fun h => h ≠ g) else s

/-- The known-subscription set after a call sequence, starting from the
empty set `NewBackend` creates. -/
def mqttGatewaySet (ops : List MqttOp) : List EUI64 :=
  ops.foldl applyMqttOp []

/-- Specification-side account of membership: an id is subscribed after
a call sequence exactly when its most recent successful subscribe was
not followed by a successful unsubscribe. -/
def subscribedSpec (ops : List MqttOp) (g : EUI64) : Bool :=
  ops.foldl
    (fun b op => match op with
      | .sub h ok => if ok && h = g then true else b
      | .unsub h ok => if ok && h = g then false else b)
    false

/-! ### Shared concrete inputs for witnesses -/

/-- Parse oracles that reject every payload; enough for witnesses that
never reach them. -/
def rejectingOracles : ParseOracles :=
  { parsePush := fun _ => .error .invalidPacket
    parseTx := fun _ => .error .invalidPacket }

/-- A gateway id used by concrete witnesses. -/
def macEx : EUI64 := [1, 2, 3, 4, 5, 6, 7, 8]

/-- A source address used by concrete witnesses. -/
def addrEx : UDPAddr := { ip := "192.0.2.7", isLoopback := false }

/-- A backend with an empty registry and no configurations. -/
def backendEx : Backend :=
  { closed := false, gateways := emptyRegistry, configurations := []
    skipCRCCheck := false, fakeRxTime := false }

/-- A registry holding exactly the example gateway at the example
address, protocol version 2. -/
def registryEx : GatewayRegistry :=
  gatewaysSet emptyRegistry macEx
    { addr := addrEx, lastSeen := 10, protocolVersion := 2 }

/-! ### C9 -/

/-- C9: after `Close` has set the `closed` flag, `handlePacket` returns
nil for every subsequently handled packet, with no effect emitted, no
registry update and no reply enqueued: the state is returned
unchanged. -/
theorem closed_handlePacket_is_noop (o : ParseOracles) (b : Backend)
    (up : UdpPacket) (now : Nat) (oip : Option String) (car : List Nat)
    (h : b.closed = true) :
    handlePacket o b up now oip car = (b, [], .ok ()) := by
  simp [handlePacket, h]

/-- Witness for C9 at a concrete closed backend and packet. -/
theorem closed_handlePacket_is_noop_witness :
    handlePacket rejectingOracles { backendEx with closed := true }
      { addr := addrEx, data := [2, 0, 0, 2] } 0 none [] =
      ({ backendEx with closed := true }, [], .ok ()) :=
  closed_handlePacket_is_noop rejectingOracles { backendEx with closed := true }
    { addr := addrEx, data := [2, 0, 0, 2] } 0 none [] rfl

/-! ### C3 -/

/-- C3: `SendDownlinkFrame` on a frame whose `TxInfo.GatewayId` has no
registry entry returns the "gateway does not exist" error and enqueues
no datagram on the outbound channel (hence nothing is written to the
UDP socket, which only writes what the channel carries). -/
theorem sendDownlinkFrame_unknown_gateway (b : Backend) (frame : DownlinkFrame)
    (h : b.gateways frame.txInfoGatewayId = none) :
    SendDownlinkFrame b frame = ([], .error .gatewayDoesNotExist) ∧
      BackendErr.message .gatewayDoesNotExist = "gateway does not exist" := by
  refine ⟨?_, rfl⟩
  simp [SendDownlinkFrame, gatewaysGet, h]

/-- Witness for C3: an empty registry and the all-ff gateway id. -/
theorem sendDownlinkFrame_unknown_gateway_witness :
    SendDownlinkFrame backendEx
        { token := 123, txInfoGatewayId := List.replicate 8 255, phyPayload := [] } =
      ([], .error .gatewayDoesNotExist) ∧
      BackendErr.message .gatewayDoesNotExist = "gateway does not exist" :=
  sendDownlinkFrame_unknown_gateway backendEx
    { token := 123, txInfoGatewayId := List.replicate 8 255, phyPayload := [] } rfl

/-! ### C4 -/

/-- C4: every TX_ACK handled by the UDP backend emits exactly one
`DownlinkTXAck`, whose `Token` is the packet's 16-bit random token and
whose gateway id is the packet's MAC; its `Error` is empty when the
JSON body is absent or its error field is empty or `"NONE"`, and is the
received error string verbatim otherwise. -/
theorem handleTXACK_token_and_error (p : TXACKPacket) :
    ∃ a : DownlinkTXAck, handleTXACK p = [.emitTxAck a] ∧
      a.token = p.randomToken ∧ a.gatewayId = p.gatewayMAC ∧
      (p.payload = none → a.error = "") ∧
      (∀ e : String, p.payload = some ⟨e⟩ →
        ((e = "" ∨ e = "NONE") → a.error = "") ∧
        (e ≠ "" → e ≠ "NONE" → a.error = e)) := by
  cases hp : p.payload with
  | none =>
      refine ⟨{ gatewayId := p.gatewayMAC, token := p.randomToken, error := "" },
        by simp [handleTXACK, hp], rfl, rfl, fun _ => rfl,
        fun e he => nomatch he⟩
  | some pl =>
      by_cases h : pl.error ≠ "" ∧ pl.error ≠ "NONE"
      · refine ⟨{ gatewayId := p.gatewayMAC, token := p.randomToken
                  error := pl.error },
          by simp [handleTXACK, hp, h], rfl, rfl, ?_, fun e he => ?_⟩
        · exact fun hn => nomatch hn
        · have hpe : pl = ⟨e⟩ := by injection he
          subst hpe
          exact ⟨fun hor => absurd hor (not_or.mpr h), fun _ _ => rfl⟩
      · refine ⟨{ gatewayId := p.gatewayMAC, token := p.randomToken
                  error := "" },
          by simp [handleTXACK, hp, h], rfl, rfl, ?_, fun e he => ?_⟩
        · exact fun hn => nomatch hn
        · have hpe : pl = ⟨e⟩ := by injection he
          subst hpe
          exact ⟨fun _ => rfl, fun h1 h2 => absurd ⟨h1, h2⟩ h⟩

/-- Witness for C4 at a concrete TX_ACK carrying the error
`"TOO_LATE"` (scenario 3 of the specification). -/
theorem handleTXACK_token_and_error_witness :
    ∃ a : DownlinkTXAck,
      handleTXACK { protocolVersion := 2, randomToken := 0xAABB
                    gatewayMAC := macEx, payload := some ⟨"TOO_LATE"⟩ } =
        [.emitTxAck a] ∧
      a.token = 0xAABB ∧ a.gatewayId = macEx ∧
      (some (⟨"TOO_LATE"⟩ : TXPKACK) = none → a.error = "") ∧
      (∀ e : String, some (⟨"TOO_LATE"⟩ : TXPKACK) = some ⟨e⟩ →
        ((e = "" ∨ e = "NONE") → a.error = "") ∧
        (e ≠ "" → e ≠ "NONE" → a.error = e)) :=
  handleTXACK_token_and_error
    { protocolVersion := 2, randomToken := 0xAABB
      gatewayMAC := macEx, payload := some ⟨"TOO_LATE"⟩ }

/-! ### C6 -/

/-- C6: for every downlink frame sent through `SendDownlinkFrame` to a
registered gateway, the 16-bit random token encoded in the emitted
PULL_RESP prefix equals the low 16 bits of the frame's
application-supplied `Token` (`Token mod 2^16`), and the datagram is
the only enqueued effect, addressed to the stored gateway address. -/
theorem sendDownlinkFrame_token_low16 (b : Backend) (frame : DownlinkFrame)
    (g : GatewayMeta)
    (h : gatewaysGet b.gateways frame.txInfoGatewayId = .ok g) :
    ∃ hi lo rest,
      SendDownlinkFrame b frame =
        ([.sendUdp g.addr (g.protocolVersion :: hi :: lo :: 3 :: rest)], .ok ()) ∧
      hi * 256 + lo = frame.token % 2 ^ 16 := by
  refine ⟨frame.token % 2 ^ 16 / 256 % 256, frame.token % 2 ^ 16 % 256,
    frame.phyPayload, ?_, ?_⟩
  · simp [SendDownlinkFrame, h, pullRespMarshal, GetPullRespPacket]
  · omega

/-- Witness for C6: a registered gateway and a frame whose 32-bit token
`0x12ABCD` truncates to `0xABCD`. -/
theorem sendDownlinkFrame_token_low16_witness :
    ∃ hi lo rest,
      SendDownlinkFrame { backendEx with gateways := registryEx }
          { token := 0x12ABCD, txInfoGatewayId := macEx, phyPayload := [1, 2] } =
        ([.sendUdp addrEx (2 :: hi :: lo :: 3 :: rest)], .ok ()) ∧
      hi * 256 + lo = 0x12ABCD % 2 ^ 16 :=
  sendDownlinkFrame_token_low16 { backendEx with gateways := registryEx }
    { token := 0x12ABCD, txInfoGatewayId := macEx, phyPayload := [1, 2] }
    { addr := addrEx, lastSeen := 10, protocolVersion := 2 } (by rfl)

/-! ### C7 -/

/-- C7: `handleCommand` routes an inbound message by topic: a topic
ending in `down` or containing `command=down` is unmarshalled as a
`DownlinkFrame` and delivered to the downlink channel; otherwise a
topic ending in `config` or containing `command=config` is unmarshalled
as a `GatewayConfiguration` and delivered to the configuration channel;
any other topic is dropped and reaches neither channel. -/
theorem handleCommand_routing (o : MqttOracles) (topic : String)
    (pl : List Nat) (f : DownlinkFrame) (c : GatewayConfiguration) :
    (downTopic topic = true → o.unmarshalDown pl = .ok f →
       handleCommand o topic pl = [.downlink f]) ∧
    (downTopic topic = false → configTopic topic = true →
       o.unmarshalConfig pl = .ok c →
       handleCommand o topic pl = [.gwConfig c]) ∧
    (downTopic topic = false → configTopic topic = false →
       handleCommand o topic pl = []) := by
  refine ⟨fun hd hu => ?_, fun hd hc hu => ?_, fun hd hc => ?_⟩
  · simp [handleCommand, hd, handleDownlinkFrame, hu]
  · simp [handleCommand, hd, hc, handleGatewayConfiguration, hu]
  · simp [handleCommand, hd, hc]

/-- A downlink frame delivered by concrete MQTT oracles. -/
def dlFrameEx : DownlinkFrame :=
  { token := 5, txInfoGatewayId := macEx, phyPayload := [3, 4] }

/-- A gateway configuration delivered by concrete MQTT oracles. -/
def gwConfigEx : GatewayConfiguration := { gatewayId := macEx, version := "v2" }

/-- Concrete MQTT oracles that decode every payload. -/
def mqttOraclesEx : MqttOracles :=
  { unmarshalDown := fun _ => .ok dlFrameEx
    unmarshalConfig := fun _ => .ok gwConfigEx }

/-- Witness for C7: the default command topic ending in `down` routes
to the downlink channel. -/
theorem handleCommand_routing_witness :
    handleCommand mqttOraclesEx "gateway/0102030405060708/command/down" [] =
      [.downlink dlFrameEx] :=
  (handleCommand_routing mqttOraclesEx "gateway/0102030405060708/command/down"
    [] dlFrameEx gwConfigEx).1 (by decide) rfl

/-! ### C1 -/

/-- C1: for every successfully decoded PULL_DATA packet, `handlePullData`
enqueues exactly one PULL_ACK back to the packet's source address whose
prefix repeats the request's protocol version and random-token bytes,
upserts the registry entry for the packet's MAC with the source
address, the current time and the protocol version (all other registry
entries unchanged), and then sends a `NotifyMac` event carrying just
the gateway id. -/
theorem handlePullData_ack_upsert_notify (b : Backend) (up : UdpPacket)
    (now : Nat) (p : PullDataPacket)
    (hp : pullDataUnmarshal up.data = .ok p)
    (hbytes : ∀ x ∈ up.data, x < 256) :
    ∃ b', handlePullData b up now =
        (b', [.sendUdp up.addr (pullAckBytes p.protocolVersion p.randomToken),
              .notifyMac { emptyStats with gatewayId := p.gatewayMAC }],
         .ok ()) ∧
      pullAckBytes p.protocolVersion p.randomToken =
        [up.data.get! 0, up.data.get! 1, up.data.get! 2, 4] ∧
      b'.gateways p.gatewayMAC =
        some { addr := up.addr, lastSeen := now
               protocolVersion := p.protocolVersion } ∧
      (∀ id : EUI64, id ≠ p.gatewayMAC → b'.gateways id = b.gateways id) ∧
      b'.closed = b.closed ∧ b'.configurations = b.configurations := by
  obtain ⟨addr, data⟩ := up
  match data, hbytes with
  | d0 :: d1 :: d2 :: d3 :: rest, hbytes =>
    have hp2 := hp
    unfold pullDataUnmarshal at hp2
    split_ifs at hp2 with hcond
    obtain ⟨hlen, hver, htype⟩ := hcond
    injection hp2 with hp2
    subst hp2
    have hd1 : d1 < 256 := hbytes d1 (by simp)
    have hd2 : d2 < 256 := hbytes d2 (by simp)
    let mac : EUI64 := (d0 :: d1 :: d2 :: d3 :: rest).drop 4 |>.take 8
    let meta : GatewayMeta :=
      { addr := addr, lastSeen := now
        protocolVersion := (d0 :: d1 :: d2 :: d3 :: rest).head! }
    refine ⟨{ b with gateways := gatewaysSet b.gateways mac meta },
      ?_, ?_, ?_, ?_, rfl, rfl⟩
    · simp only [handlePullData, hp]
    · show [d0, (d1 * 256 + d2) / 256 % 256, (d1 * 256 + d2) % 256, 4] =
        [d0, d1, d2, 4]
      have h1 : (d1 * 256 + d2) / 256 % 256 = d1 := by omega
      have h2 : (d1 * 256 + d2) % 256 = d2 := by omega
      rw [h1, h2]
    · show gatewaysSet b.gateways _ _ _ = _
      rw [gatewaysSet]
      rw [if_pos]
      rfl
    · intro id hid
      show gatewaysSet b.gateways _ _ id = b.gateways id
      simp only [gatewaysSet]
      rw [if_neg]
      exact fun hc => hid (by simpa using hc)
  | [], hbytes => exact absurd hp (by simp [pullDataUnmarshal])
  | [d0], hbytes => exact absurd hp (by simp [pullDataUnmarshal])
  | [d0, d1], hbytes => exact absurd hp (by simp [pullDataUnmarshal])
  | [d0, d1, d2], hbytes => exact absurd hp (by simp [pullDataUnmarshal])

/-- Witness for C1: the PULL_DATA of scenario 1 of the specification,
`02 AB CD 02` followed by the MAC `0102030405060708`. -/
theorem handlePullData_ack_upsert_notify_witness :
    ∃ b', handlePullData backendEx
        { addr := addrEx, data := [2, 0xAB, 0xCD, 2, 1, 2, 3, 4, 5, 6, 7, 8] }
        77 =
        (b', [.sendUdp addrEx (pullAckBytes 2 (0xAB * 256 + 0xCD)),
              .notifyMac { emptyStats with gatewayId := macEx }],
         .ok ()) ∧
      pullAckBytes 2 (0xAB * 256 + 0xCD) = [2, 0xAB, 0xCD, 4] ∧
      b'.gateways macEx =
        some { addr := addrEx, lastSeen := 77, protocolVersion := 2 } ∧
      (∀ id : EUI64, id ≠ macEx → b'.gateways id = backendEx.gateways id) ∧
      b'.closed = backendEx.closed ∧
      b'.configurations = backendEx.configurations :=
  handlePullData_ack_upsert_notify backendEx
    { addr := addrEx, data := [2, 0xAB, 0xCD, 2, 1, 2, 3, 4, 5, 6, 7, 8] }
    77 { protocolVersion := 2, randomToken := 0xAB * 256 + 0xCD
         gatewayMAC := macEx }
    (by rfl) (by decide)

/-! ### C2 -/

/-- C2: for every PUSH_DATA packet processed, exactly one PUSH_ACK
carrying the packet's protocol version and random token is enqueued on
the outbound channel as the very first effect — before any event —
and every later effect is an event; when the packet contains a `stat`
object, the single `GatewayStats` event precedes all `UplinkFrame`
events of the packet. -/
theorem handlePushData_ack_then_stats_then_uplinks (b : Backend)
    (addr : UDPAddr) (p : PushDataPacket) (oip : Option String)
    (car : List Nat) :
    ∃ se ue,
      handlePushData b addr p oip car =
        .sendUdp addr (pushAckBytes p.protocolVersion p.randomToken) ::
          (se ++ ue) ∧
      (∀ e ∈ se ++ ue, e.isSendUdp = false) ∧
      (∀ e ∈ se, e.isEmitStats = true) ∧
      (∀ e ∈ ue, e.isEmitUplink = true) ∧
      (∀ st, p.stat = some st → ∃ s, se = [.emitStats s]) ∧
      (p.stat = none → se = []) := by
  refine ⟨(match GetGatewayStats p.gatewayMAC p.stat with
           | none => []
           | some stats =>
               handleStats b p.gatewayMAC (setStatsIp addr oip stats)),
    (GetUplinkFrames p.gatewayMAC b.skipCRCCheck p.rxpk).map
      (fun f => .emitUplink { f with carrier := car }),
    ?_, ?_, ?_, ?_, ?_, ?_⟩
  · simp [handlePushData]
  · intro e he
    rcases List.mem_append.mp he with h | h
    · cases hst : p.stat with
      | none => rw [hst] at h; simp [GetGatewayStats] at h
      | some st =>
          rw [hst] at h
          simp [GetGatewayStats, handleStats] at h
          simp [h, Effect.isSendUdp]
    · obtain ⟨f, -, rfl⟩ := List.mem_map.mp h
      rfl
  · intro e he
    cases hst : p.stat with
    | none => rw [hst] at he; simp [GetGatewayStats] at he
    | some st =>
        rw [hst] at he
        simp [GetGatewayStats, handleStats] at he
        simp [he, Effect.isEmitStats]
  · intro e he
    obtain ⟨f, -, rfl⟩ := List.mem_map.mp he
    rfl
  · intro st hst
    rw [hst]
    exact ⟨_, rfl⟩
  · intro hst
    rw [hst]
    rfl

/-- A PUSH_DATA packet with both a `stat` object and one valid-CRC
uplink record, used by concrete witnesses. -/
def pushPacketEx : PushDataPacket :=
  { protocolVersion := 2, randomToken := 0x1234, gatewayMAC := macEx
    stat := some { timePresent := true, rxReceived := 3, rxValidCRC := 2
                   txReceived := 1, txEmitted := 1 }
    rxpk := [{ crcStat := 1, freq := 868100000, payload := [1, 2, 3, 4] }] }

/-- Witness for C2 at the concrete PUSH_DATA packet above. -/
theorem handlePushData_ack_then_stats_then_uplinks_witness :
    ∃ se ue,
      handlePushData backendEx addrEx pushPacketEx none [9] =
        .sendUdp addrEx (pushAckBytes 2 0x1234) :: (se ++ ue) ∧
      (∀ e ∈ se ++ ue, e.isSendUdp = false) ∧
      (∀ e ∈ se, e.isEmitStats = true) ∧
      (∀ e ∈ ue, e.isEmitUplink = true) ∧
      (∀ st, pushPacketEx.stat = some st → ∃ s, se = [.emitStats s]) ∧
      (pushPacketEx.stat = none → se = []) :=
  handlePushData_ack_then_stats_then_uplinks backendEx addrEx pushPacketEx
    none [9]

/-! ### C10 -/

/-- The subscription fold of `subscribedSpec`, generalized over the
starting value. -/
def subscribedFrom (ops : List MqttOp) (g : EUI64) (b : Bool) : Bool :=
  ops.foldl
    (fun b op => match op with
      | .sub h ok => if ok && h = g then true else b
      | .unsub h ok => if ok && h = g then false else b)
    b

/-- The generalized correspondence between the integration's known
subscription set and the specification fold. -/
theorem mem_mqtt_foldl (ops : List MqttOp) (g : EUI64) :
    ∀ s : List EUI64,
      (g ∈ ops.foldl applyMqttOp s) ↔
        subscribedFrom ops g (decide (g ∈ s)) = true := by
  induction ops with
  | nil =>
      intro s
      simp [subscribedFrom]
  | cons op ops ih =>
      intro s
      cases op with
      | sub h ok =>
          have key : decide (g ∈ applyMqttOp s (.sub h ok)) =
              (if ok && h = g then true else decide (g ∈ s)) := by
            cases ok with
            | false => simp [applyMqttOp]
            | true =>
                by_cases hg : h = g
                · subst hg
                  by_cases hs : h ∈ s <;> simp [applyMqttOp, hs]
                · by_cases hs : h ∈ s <;>
                    simp [applyMqttOp, hs, hg, Ne.symm hg]
          rw [List.foldl_cons, ih,
            show subscribedFrom (MqttOp.sub h ok :: ops) g (decide (g ∈ s)) =
              subscribedFrom ops g (if ok && h = g then true
                                    else decide (g ∈ s)) from rfl,
            key]
      | unsub h ok =>
          have key : decide (g ∈ applyMqttOp s (.unsub h ok)) =
              (if ok && h = g then false else decide (g ∈ s)) := by
            cases ok with
            | false => simp [applyMqttOp]
            | true =>
                by_cases hg : h = g
                · subst hg
                  simp [applyMqttOp]
                · simp [applyMqttOp, hg, Ne.symm hg]
          rw [List.foldl_cons, ih,
            show subscribedFrom (MqttOp.unsub h ok :: ops) g (decide (g ∈ s)) =
              subscribedFrom ops g (if ok && h = g then false
                                    else decide (g ∈ s)) from rfl,
            key]

/-- C10: a failed broker subscribe or unsubscribe leaves the known
subscription set unchanged, a successful subscribe adds the id and a
successful unsubscribe removes it; consequently, after any call
sequence, the set `onConnected` re-subscribes contains an id exactly
when its most recent successful subscribe was not followed by a
successful unsubscribe (the `subscribedSpec` fold). -/
theorem mqtt_subscription_set_spec (ops : List MqttOp) (g : EUI64) :
    ((g ∈ mqttGatewaySet ops) ↔ subscribedSpec ops g = true) ∧
    (∀ (s : List EUI64) (h2 : EUI64), applyMqttOp s (.sub h2 false) = s) ∧
    (∀ (s : List EUI64) (h2 : EUI64), applyMqttOp s (.unsub h2 false) = s) := by
  refine ⟨?_, fun s h2 => rfl, fun s h2 => rfl⟩
  have h := mem_mqtt_foldl ops g []
  simpa [mqttGatewaySet, subscribedSpec, subscribedFrom] using h

/-- Witness for C10: after a successful subscribe, a failed unsubscribe
and an unrelated failed subscribe, the example gateway is still in the
re-subscribed set. -/
theorem mqtt_subscription_set_spec_witness :
    macEx ∈ mqttGatewaySet
      [.sub macEx true, .unsub macEx false, .sub [9, 9, 9, 9, 9, 9, 9, 9] false] :=
  (mqtt_subscription_set_spec
    [.sub macEx true, .unsub macEx false, .sub [9, 9, 9, 9, 9, 9, 9, 9] false]
    macEx).1.mpr (by decide)

/-! ### handleStats characterization -/

/-- Unfolding of `lastConfigVersion` over a leading configuration. -/
theorem lastConfigVersion_cons (c : PfConfiguration)
    (cfgs : List PfConfiguration) (g : EUI64) (dflt : String) :
    lastConfigVersion (c :: cfgs) g dflt =
      lastConfigVersion cfgs g
        (if g = c.gatewayID then c.currentVersion else dflt) := by
  unfold lastConfigVersion
  by_cases h : g = c.gatewayID
  · rw [if_pos h]
    have hf : (c :: cfgs).filter (fun c2 => decide (g = c2.gatewayID)) =
        c :: cfgs.filter (fun c2 => decide (g = c2.gatewayID)) := by
      rw [List.filter_cons, if_pos (by simp [h])]
    rw [hf]
    rcases hl : cfgs.filter (fun c2 => decide (g = c2.gatewayID)) with _ | ⟨x, xs⟩
    · rw [hl]; rfl
    · rw [hl, List.getLast?_cons_cons]; rfl
  · rw [if_neg h]
    have hf : (c :: cfgs).filter (fun c2 => decide (g = c2.gatewayID)) =
        cfgs.filter (fun c2 => decide (g = c2.gatewayID)) := by
      rw [List.filter_cons, if_neg (by simp [h])]
    rw [hf]

/-- The configuration-walking fold of `handleStats` only rewrites the
`configVersion` field, to the current version of the last matching
configuration entry. -/
theorem foldl_setConfigVersion (cfgs : List PfConfiguration) (gid : EUI64) :
    ∀ stats : GatewayStats,
      cfgs.foldl (fun s c => if gid = c.gatewayID
          then { s with configVersion := c.currentVersion } else s) stats =
        { stats with configVersion :=
            lastConfigVersion cfgs gid stats.configVersion } := by
  induction cfgs with
  | nil => intro stats; rfl
  | cons c cfgs ih =>
      intro stats
      rw [List.foldl_cons, lastConfigVersion_cons]
      by_cases h : gid = c.gatewayID
      · rw [if_pos h, ih, if_pos h]
      · rw [if_neg h, ih, if_neg h]

/-- `handleStats` emits exactly one stats event, equal to its input
with only the `configVersion` field rewritten. -/
theorem handleStats_eq (b : Backend) (gid : EUI64) (stats : GatewayStats) :
    handleStats b gid stats =
      [.emitStats { stats with
                    configVersion := lastConfigVersion b.configurations gid
                      stats.configVersion }] := by
  unfold handleStats
  rw [foldl_setConfigVersion]

/-- `setStatsIp` leaves the metadata field unchanged. -/
theorem setStatsIp_metaData (addr : UDPAddr) (oip : Option String)
    (s : GatewayStats) : (setStatsIp addr oip s).metaData = s.metaData := by
  unfold setStatsIp
  rcases oip with _ | ip <;> by_cases h : addr.isLoopback <;> simp [h]

/-- `setStatsIp` leaves the configuration-version field unchanged. -/
theorem setStatsIp_configVersion (addr : UDPAddr) (oip : Option String)
    (s : GatewayStats) :
    (setStatsIp addr oip s).configVersion = s.configVersion := by
  unfold setStatsIp
  rcases oip with _ | ip <;> by_cases h : addr.isLoopback <;> simp [h]

/-- `setStatsIp` leaves the gateway id unchanged. -/
theorem setStatsIp_gatewayId (addr : UDPAddr) (oip : Option String)
    (s : GatewayStats) : (setStatsIp addr oip s).gatewayId = s.gatewayId := by
  unfold setStatsIp
  rcases oip with _ | ip <;> by_cases h : addr.isLoopback <;> simp [h]

/-- Uplink events contribute nothing to the stats filter. -/
theorem filter_isEmitStats_map_uplink (L : List UplinkFrame) (car : List Nat) :
    (L.map (fun f => Effect.emitUplink { f with carrier := car })).filter
      Effect.isEmitStats = [] := by
  induction L with
  | nil => rfl
  | cons f L ih => simp [List.filter_cons, Effect.isEmitStats, ih]

/-! ### C8 -/

/-- The metadata an effect's stats event carries, when it is one. -/
def statsMetaOf : Effect → Option (List (String × String))
  | .emitStats s => some s.metaData
  | _ => none

/-- A backend with one configuration entry for the example gateway,
already at version `"v1"`. -/
def bC8 : Backend :=
  { closed := false, gateways := emptyRegistry
    configurations := [{ gatewayID := macEx, baseFile := "base.json"
                         outputFile := "out.json", restartCommand := "restart"
                         currentVersion := "v1" }]
    skipCRCCheck := false, fakeRxTime := false }

/-- Counterexample for C8: with a non-empty static metadata map
`[("serial", "abc")]`, the stats event the backend emits for the
concrete PUSH_DATA packet does not carry the static+dynamic metadata
union — its metadata field is empty, because the backend never touches
it (the forwarder attaches metadata later, after the stats channel). -/
theorem handlePushData_metadata_counterexample :
    ¬ (∀ e ∈ handlePushData bC8 addrEx pushPacketEx none [],
        statsMetaOf e = none ∨
        statsMetaOf e = some (metadataGet [("serial", "abc")] [])) := by
  decide

/-- C8 (amended): every `GatewayStats` event emitted for a PUSH_DATA
stat object is, before being placed on the stats channel, augmented
with the gateway's current `config_version` (the version of the last
matching configuration entry); its metadata field is not augmented —
it stays the empty map the status decoder produced. -/
theorem handlePushData_stats_version_not_metadata (b : Backend)
    (addr : UDPAddr) (p : PushDataPacket) (oip : Option String)
    (car : List Nat) (st : StatRecord) (hst : p.stat = some st) :
    ∃ s : GatewayStats,
      (handlePushData b addr p oip car).filter Effect.isEmitStats =
        [.emitStats s] ∧
      s.configVersion = lastConfigVersion b.configurations p.gatewayMAC "" ∧
      s.metaData = [] ∧ s.gatewayId = p.gatewayMAC := by
  have hdec : GetGatewayStats p.gatewayMAC p.stat =
      some { emptyStats with
             gatewayId := p.gatewayMAC, rxReceived := st.rxReceived
             rxValidCRC := st.rxValidCRC, txReceived := st.txReceived
             txEmitted := st.txEmitted } := by
    rw [hst]; rfl
  refine ⟨{ setStatsIp addr oip
              { emptyStats with
                gatewayId := p.gatewayMAC, rxReceived := st.rxReceived
                rxValidCRC := st.rxValidCRC, txReceived := st.txReceived
                txEmitted := st.txEmitted } with
            configVersion := lastConfigVersion b.configurations p.gatewayMAC
              "" }, ?_, rfl, ?_, ?_⟩
  · simp [handlePushData, hdec, handleStats_eq, setStatsIp_configVersion,
      emptyStats, List.filter_append, List.filter_cons, Effect.isEmitStats,
      filter_isEmitStats_map_uplink]
  · simp [setStatsIp_metaData, emptyStats]
  · simp [setStatsIp_gatewayId, emptyStats]

/-- Witness for the amended C8 at the concrete PUSH_DATA packet and
the configured backend: the emitted stats carry version `"v1"` and an
empty metadata map. -/
theorem handlePushData_stats_version_not_metadata_witness :
    ∃ s : GatewayStats,
      (handlePushData bC8 addrEx pushPacketEx none []).filter
        Effect.isEmitStats = [.emitStats s] ∧
      s.configVersion =
        lastConfigVersion bC8.configurations pushPacketEx.gatewayMAC "" ∧
      s.metaData = [] ∧ s.gatewayId = pushPacketEx.gatewayMAC :=
  handlePushData_stats_version_not_metadata bC8 addrEx pushPacketEx none []
    { timePresent := true, rxReceived := 3, rxValidCRC := 2
      txReceived := 1, txEmitted := 1 } rfl

/-! ### C5 -/

/-- The last-match fold of `ApplyConfiguration` returns `none` exactly
when no configuration entry matches the id. -/
theorem findLast_none_iff (cfgs : List PfConfiguration) (id : EUI64) :
    ∀ acc : Option PfConfiguration,
      cfgs.foldl (fun acc c => if c.gatewayID = id then some c else acc) acc =
          none ↔
        (acc = none ∧
          cfgs.any (fun c => decide (c.gatewayID = id)) = false) := by
  induction cfgs with
  | nil => intro acc; simp
  | cons c cfgs ih =>
      intro acc
      rw [List.foldl_cons, ih]
      by_cases h : c.gatewayID = id
      · simp [h]
      · simp [h, List.any_cons]

/-- Whatever the last-match fold returns matches the searched id
(provided the accumulator already did). -/
theorem findLast_some_matches (cfgs : List PfConfiguration) (id : EUI64) :
    ∀ (acc : Option PfConfiguration) (pf : PfConfiguration),
      (∀ q, acc = some q → q.gatewayID = id) →
      cfgs.foldl (fun acc c => if c.gatewayID = id then some c else acc) acc =
        some pf →
      pf.gatewayID = id := by
  induction cfgs with
  | nil => intro acc pf hacc h; exact hacc pf h
  | cons c cfgs ih =>
      intro acc pf hacc h
      rw [List.foldl_cons] at h
      refine ih _ pf ?_ h
      intro q hq
      by_cases hc : c.gatewayID = id
      · rw [if_pos hc] at hq
        cases hq
        exact hc
      · rw [if_neg hc] at hq
        exact hacc q hq

/-- One `ApplyConfiguration` call rewrites the configuration list
exactly when an entry matches the id and every effectful step
succeeded; otherwise the list is unchanged. -/
theorem ApplyConfiguration_configurations (b : Backend)
    (cfg : GatewayConfiguration) (io : ApplySteps) :
    (ApplyConfiguration b cfg io).1.configurations =
      if (b.configurations.any
            (fun c => decide (c.gatewayID = cfg.gatewayId)) &&
          io.allOk) = true
      then b.configurations.map
        (fun c => if c.gatewayID = cfg.gatewayId
                  then { c with currentVersion := cfg.version } else c)
      else b.configurations := by
  unfold ApplyConfiguration
  rcases hfind : b.configurations.foldl
      (fun acc c => if c.gatewayID = cfg.gatewayId then some c else acc)
      none with _ | pf
  · have hany := ((findLast_none_iff b.configurations cfg.gatewayId none).mp
      hfind).2
    simp [hfind, hany]
  · have hid : pf.gatewayID = cfg.gatewayId :=
      findLast_some_matches b.configurations cfg.gatewayId none pf
        (fun q hq => nomatch hq) hfind
    have hany : b.configurations.any
        (fun c => decide (c.gatewayID = cfg.gatewayId)) = true := by
      by_contra hany
      have hfalse : b.configurations.any
          (fun c => decide (c.gatewayID = cfg.gatewayId)) = false := by
        revert hany
        cases b.configurations.any
          (fun c => decide (c.gatewayID = cfg.gatewayId)) <;> simp
      have hnone := (findLast_none_iff b.configurations cfg.gatewayId
        none).mpr ⟨rfl, hfalse⟩
      rw [hnone] at hfind
      exact nomatch hfind
    simp only [hfind]
    unfold applyConfiguration
    rcases io with ⟨g1, g2, g3, g4, g5⟩
    cases g1 <;> cases g2 <;> cases g3 <;> cases g4 <;> cases g5 <;>
      simp [ApplySteps.allOk, hany, hid]

/-- A failed `ApplyConfiguration` call leaves the whole backend state —
in particular every `currentVersion` — unchanged. -/
theorem ApplyConfiguration_error_unchanged (b : Backend)
    (cfg : GatewayConfiguration) (io : ApplySteps) (err : BackendErr)
    (h : (ApplyConfiguration b cfg io).2 = .error err) :
    (ApplyConfiguration b cfg io).1 = b := by
  unfold ApplyConfiguration at h ⊢
  rcases hfind : b.configurations.foldl
      (fun acc c => if c.gatewayID = cfg.gatewayId then some c else acc)
      none with _ | pf
  · simp [hfind]
  · simp only [hfind] at h ⊢
    unfold applyConfiguration at h ⊢
    rcases io with ⟨g1, g2, g3, g4, g5⟩
    cases g1 <;> cases g2 <;> cases g3 <;> cases g4 <;> cases g5 <;> simp_all

/-- `any` over the projected ids equals `any` of the composed
predicate over the configurations. -/
theorem any_map_gatewayID (cfgs : List PfConfiguration) (p : EUI64 → Bool) :
    (cfgs.map PfConfiguration.gatewayID).any p =
      cfgs.any (fun c => p c.gatewayID) := by
  induction cfgs with
  | nil => rfl
  | cons c cfgs ih => simp [List.any_cons, ih]

/-- `applySucceeds` depends only on the configuration ids. -/
theorem applySucceeds_congr (cfgs cfgs2 : List PfConfiguration)
    (e : ApplyEvent)
    (h : cfgs.map PfConfiguration.gatewayID =
      cfgs2.map PfConfiguration.gatewayID) :
    applySucceeds cfgs e = applySucceeds cfgs2 e := by
  unfold applySucceeds
  have h1 : cfgs.any (fun c => decide (c.gatewayID = e.config.gatewayId)) =
      cfgs2.any (fun c => decide (c.gatewayID = e.config.gatewayId)) := by
    rw [← any_map_gatewayID cfgs (fun i => decide (i = e.config.gatewayId)),
      ← any_map_gatewayID cfgs2 (fun i => decide (i = e.config.gatewayId)), h]
  rw [h1]

/-- The last-successful-apply fold also depends only on the
configuration ids. -/
theorem lastApplied_congr (es : List ApplyEvent) (g : EUI64)
    (cfgs cfgs2 : List PfConfiguration)
    (h : cfgs.map PfConfiguration.gatewayID =
      cfgs2.map PfConfiguration.gatewayID) :
    ∀ v : String,
      es.foldl (fun v e => if e.config.gatewayId = g ∧
          applySucceeds cfgs e = true then e.config.version else v) v =
      es.foldl (fun v e => if e.config.gatewayId = g ∧
          applySucceeds cfgs2 e = true then e.config.version else v) v := by
  induction es with
  | nil => intro v; rfl
  | cons e es ih =>
      intro v
      rw [List.foldl_cons, List.foldl_cons, applySucceeds_congr cfgs cfgs2 e h,
        ih]

/-- Invariant of a run of `ApplyConfiguration` calls: the configuration
ids never change, and every entry matching a gateway id carries the
version of the most recent successful apply for that id (starting from
a uniform initial version). -/
theorem runApplies_invariant (es : List ApplyEvent) (g : EUI64) :
    ∀ (b : Backend) (v : String),
      (∀ c ∈ b.configurations, c.gatewayID = g → c.currentVersion = v) →
      ((runApplies b es).configurations.map PfConfiguration.gatewayID =
        b.configurations.map PfConfiguration.gatewayID) ∧
      ∀ c ∈ (runApplies b es).configurations, c.gatewayID = g →
        c.currentVersion =
          es.foldl (fun v e => if e.config.gatewayId = g ∧
            applySucceeds b.configurations e = true
            then e.config.version else v) v := by
  induction es with
  | nil =>
      intro b v hv
      exact ⟨rfl, fun c hc hcg => hv c hc hcg⟩
  | cons e es ih =>
      intro b v hv
      have hstep := ApplyConfiguration_configurations b e.config e.io
      have hids : (ApplyConfiguration b e.config e.io).1.configurations.map
          PfConfiguration.gatewayID =
          b.configurations.map PfConfiguration.gatewayID := by
        rw [hstep]
        by_cases hc : (b.configurations.any
            (fun c => decide (c.gatewayID = e.config.gatewayId)) &&
            e.io.allOk) = true
        · rw [if_pos hc, List.map_map]
          congr 1
          funext c
          by_cases hcc : c.gatewayID = e.config.gatewayId <;>
            simp [hcc, Function.comp]
        · rw [if_neg hc]
      have hv1 : ∀ c ∈ (ApplyConfiguration b e.config e.io).1.configurations,
          c.gatewayID = g → c.currentVersion =
            (if e.config.gatewayId = g ∧ applySucceeds b.configurations e = true
             then e.config.version else v) := by
        rw [hstep]
        by_cases hc : (b.configurations.any
            (fun c => decide (c.gatewayID = e.config.gatewayId)) &&
            e.io.allOk) = true
        · rw [if_pos hc]
          intro c hc2 hcg
          obtain ⟨c0, hc0, rfl⟩ := List.mem_map.mp hc2
          by_cases hmatch : c0.gatewayID = e.config.gatewayId
          · rw [if_pos hmatch] at hcg ⊢
            have hgid : e.config.gatewayId = g := by
              rw [← hmatch]
              exact hcg
            have hsucc : applySucceeds b.configurations e = true := by
              unfold applySucceeds
              rw [Bool.and_eq_true] at hc
              rw [Bool.and_eq_true]
              refine ⟨?_, hc.2⟩
              exact hc.1
            rw [if_pos ⟨hgid, hsucc⟩]
          · rw [if_neg hmatch] at hcg ⊢
            have hne : ¬ (e.config.gatewayId = g ∧
                applySucceeds b.configurations e = true) := by
              rintro ⟨hgg, -⟩
              exact hmatch (by rw [hcg, ← hgg])
            rw [if_neg hne]
            exact hv c0 hc0 hcg
        · rw [if_neg hc]
          intro c hc2 hcg
          have hne : ¬ (e.config.gatewayId = g ∧
              applySucceeds b.configurations e = true) := by
            rintro ⟨-, hsucc⟩
            exact hc hsucc
          rw [if_neg hne]
          exact hv c hc2 hcg
      obtain ⟨ihids, ihv⟩ := ih (ApplyConfiguration b e.config e.io).1
        (if e.config.gatewayId = g ∧ applySucceeds b.configurations e = true
         then e.config.version else v) hv1
      have hrw : runApplies b (e :: es) =
          runApplies (ApplyConfiguration b e.config e.io).1 es := rfl
      constructor
      · rw [hrw, ihids, hids]
      · intro c hcmem hcg
        rw [hrw] at hcmem
        have hmain := ihv c hcmem hcg
        rw [List.foldl_cons]
        rw [lastApplied_congr es g b.configurations
          (ApplyConfiguration b e.config e.io).1.configurations hids.symm]
        exact hmain

/-- When every matching configuration entry carries the same version,
`lastConfigVersion` returns that version when an entry matches and the
default otherwise. -/
theorem lastConfigVersion_of_uniform (cfgs : List PfConfiguration)
    (g : EUI64) (V dflt : String)
    (h : ∀ c ∈ cfgs, c.gatewayID = g → c.currentVersion = V) :
    lastConfigVersion cfgs g dflt =
      if cfgs.any (fun c => decide (c.gatewayID = g)) = true then V
      else dflt := by
  induction cfgs generalizing dflt with
  | nil => simp [lastConfigVersion]
  | cons c cfgs ih =>
      rw [lastConfigVersion_cons]
      by_cases hc : g = c.gatewayID
      · have hcv : c.currentVersion = V :=
          h c (List.mem_cons_self c cfgs) hc.symm
        rw [if_pos hc, hcv,
          ih V (fun c2 h2 hg2 => h c2 (List.mem_cons_of_mem c h2) hg2)]
        have hcc : decide (c.gatewayID = g) = true := by rw [hc]; simp
        rw [List.any_cons, hcc]
        simp
      · rw [if_neg hc,
          ih dflt (fun c2 h2 hg2 => h c2 (List.mem_cons_of_mem c h2) hg2)]
        have hcc : decide (c.gatewayID = g) = false :=
          decide_eq_false (fun hh => hc hh.symm)
        rw [List.any_cons, hcc, Bool.false_or]

/-- When no configuration entry matches the id, the
last-successful-apply fold never moves off its initial value. -/
theorem lastApplied_empty (es : List ApplyEvent) (g : EUI64)
    (cfgs : List PfConfiguration)
    (h : cfgs.any (fun c => decide (c.gatewayID = g)) = false) :
    ∀ v : String,
      es.foldl (fun v e => if e.config.gatewayId = g ∧
        applySucceeds cfgs e = true then e.config.version else v) v = v := by
  induction es with
  | nil => intro v; rfl
  | cons e es ih =>
      intro v
      rw [List.foldl_cons]
      have hstep : (if e.config.gatewayId = g ∧
          applySucceeds cfgs e = true then e.config.version else v) = v := by
        by_cases hg : e.config.gatewayId = g
        · rw [if_neg]
          rintro ⟨-, hsucc⟩
          unfold applySucceeds at hsucc
          rw [hg, h] at hsucc
          simp at hsucc
        · rw [if_neg]
          rintro ⟨hgg, -⟩
          exact hg hgg
      rw [hstep, ih]

/-- C5: the `ConfigVersion` stamped on every `GatewayStats` the UDP
backend emits for a gateway id equals the version of the most recent
`ApplyConfiguration` call for that id whose read, merge, write and
restart steps all succeeded — the empty string when there has been
none — and a failed apply leaves the backend state, in particular
`current_version`, unchanged. -/
theorem stats_config_version_tracks_applies (b : Backend)
    (es : List ApplyEvent) (g : EUI64) (stats : GatewayStats)
    (hinit : ∀ c ∈ b.configurations, c.gatewayID = g →
      c.currentVersion = "")
    (hstats : stats.configVersion = "") :
    (∃ s, handleStats (runApplies b es) g stats = [.emitStats s] ∧
       s.configVersion = lastAppliedVersion b.configurations es g) ∧
    (∀ (b2 : Backend) (cfg : GatewayConfiguration) (io : ApplySteps)
       (err : BackendErr),
       (ApplyConfiguration b2 cfg io).2 = .error err →
       (ApplyConfiguration b2 cfg io).1 = b2) := by
  refine ⟨?_, fun b2 cfg io err h =>
    ApplyConfiguration_error_unchanged b2 cfg io err h⟩
  obtain ⟨hids, hv⟩ := runApplies_invariant es g b "" hinit
  refine ⟨_, handleStats_eq (runApplies b es) g stats, ?_⟩
  show lastConfigVersion (runApplies b es).configurations g
    stats.configVersion = lastAppliedVersion b.configurations es g
  rw [hstats]
  rw [lastConfigVersion_of_uniform (runApplies b es).configurations g
    (lastAppliedVersion b.configurations es g) "" hv]
  have htrans : (runApplies b es).configurations.any
      (fun c => decide (c.gatewayID = g)) =
      b.configurations.any (fun c => decide (c.gatewayID = g)) := by
    rw [← any_map_gatewayID (runApplies b es).configurations
      (fun i => decide (i = g)), hids, any_map_gatewayID]
  by_cases hany : ((runApplies b es).configurations.any
      (fun c => decide (c.gatewayID = g))) = true
  · rw [if_pos hany]
  · rw [if_neg hany]
    have hb0 : b.configurations.any (fun c => decide (c.gatewayID = g)) =
        false := by
      rw [← htrans]
      revert hany
      cases (runApplies b es).configurations.any
        (fun c => decide (c.gatewayID = g)) <;> simp
    exact (lastApplied_empty es g b.configurations hb0 "").symm

/-- A configuration entry for the example gateway, no version applied
yet. -/
def cfgC5 : PfConfiguration :=
  { gatewayID := macEx, baseFile := "base.json", outputFile := "out.json"
    restartCommand := "restart", currentVersion := "" }

/-- A backend holding just that configuration entry. -/
def bC5 : Backend :=
  { closed := false, gateways := emptyRegistry, configurations := [cfgC5]
    skipCRCCheck := false, fakeRxTime := false }

/-- A run of two applies for the example gateway: `"v2"` fully
succeeds, then `"v3"` fails at the restart step. -/
def esC5 : List ApplyEvent :=
  [{ config := { gatewayId := macEx, version := "v2" }
     io := { getConfigOk := true, loadOk := true, mergeOk := true
             writeOk := true, restartOk := true } },
   { config := { gatewayId := macEx, version := "v3" }
     io := { getConfigOk := true, loadOk := true, mergeOk := true
             writeOk := true, restartOk := false } }]

/-- Witness for C5 at the concrete two-apply run: the stats report the
version of the successful apply. -/
theorem stats_config_version_tracks_applies_witness :
    (∃ s, handleStats (runApplies bC5 esC5) macEx emptyStats =
       [.emitStats s] ∧
       s.configVersion = lastAppliedVersion bC5.configurations esC5 macEx) ∧
    (∀ (b2 : Backend) (cfg : GatewayConfiguration) (io : ApplySteps)
       (err : BackendErr),
       (ApplyConfiguration b2 cfg io).2 = .error err →
       (ApplyConfiguration b2 cfg io).1 = b2) :=
  stats_config_version_tracks_applies bC5 esC5 macEx emptyStats
    (by decide) rfl
